import Mathlib

/-!
Verification of the OTA (over-the-air firmware update) core of the
VoltageCloud repository, embedded shallowly from
`src/lambda/ota_manager.py` and the Step Functions workflow definition in
`src/iot_poc/ota_stack.py`.

Modelling conventions:
* DynamoDB items of the `ota-jobs` table (key: `job_id`, `device_id`)
  are the structure `JobItem`; a table is a `List JobItem`.  Attributes
  that a given write path does not set are `Option` fields left `none`,
  mirroring the fact that DynamoDB items hold only the attributes that
  were actually written.
* `update_item` follows DynamoDB semantics: it is an upsert — when no
  item with the given key exists, a new item carrying the key attributes
  and the SET attributes is created.
* Wall-clock values (`datetime.utcnow().isoformat()`) are passed in as
  explicit `now : String` arguments.
* The Python float comparison `... >= total_devices * 0.2` is embedded
  over `ℚ` with the exact literal `0.2`; for every record-set size that
  a DynamoDB query can return the float product rounds to the exact
  rational value, so the comparison is unchanged.
-/

namespace VoltageCloud.Ota

/-- The `status` dict carried by a device status event
(`event["status"]` in `handle_job_status_update`); the handler reads
only its `"status"` key, with default `"UNKNOWN"`. -/
structure StatusInfo where
  status : Option String
  deriving DecidableEq, Repr

/-- One item of the `ota-jobs` DynamoDB table.  Key attributes are
`job_id` and `device_id`; every other attribute is optional because the
different write paths of `ota_manager.py` set different attribute
sets. -/
structure JobItem where
  job_id : String
  device_id : String
  status : Option String := none
  device_type : Option String := none
  firmware_version : Option String := none
  created_at : Option String := none
  iot_job_arn : Option String := none
  last_updated : Option String := none
  status_details : Option StatusInfo := none
  cancelled_at : Option String := none
  deriving DecidableEq, Repr

/-- Body dict of an API-style response (`ota_manager.py` returns
`{"statusCode": ..., "body": {...}}` from the job-level endpoints). -/
structure RespBody where
  error : Option String := none
  message : Option String := none
  status : Option String := none
  job_id : Option String := none
  total_devices : Option Nat := none
  deriving DecidableEq, Repr

/-- A response dict of `ota_manager.py`.  `get_ota_job_status`,
`cancel_ota_job` and `create_ota_job` nest their payload under `body`;
`handle_job_status_update` instead returns top-level `message` / `error`
keys and no `body`.  The top-level `status` and `job_id` keys are never
produced by any of these functions (those values sit inside `body`);
they are carried here because the Step Functions definition reads the
JSONPaths `Payload.status` (the Choice) and `Payload.job_id` (the
check and rollback task parameters), which are top-level lookups. -/
structure Resp where
  statusCode : Nat
  body : Option RespBody := none
  message : Option String := none
  error : Option String := none
  status : Option String := none
  job_id : Option String := none
  deriving DecidableEq, Repr

/-- `entry.get("status", "UNKNOWN")` (ota_manager.py line 282). -/
def statusOf (r : JobItem) : String := r.status.getD "UNKNOWN"

/-- `status_counts.get(s, 0)` after the tally loop of lines 280-283:
the number of entries whose status attribute reads `s`. -/
def countStatus (entries : List JobItem) (s : String) : Nat :=
  (entries.filter (fun e => statusOf e == s)).length

/-- The overall-status decision of `get_ota_job_status`
(ota_manager.py lines 285-293), applied to the queried entries:
`SUCCESS` when every entry is `SUCCEEDED`, else `FAILED` when
`FAILED + CANCELLED >= total * 0.2`, else `IN_PROGRESS` when some entry
is `IN_PROGRESS`, else `QUEUED`. -/
def overallStatus (entries : List JobItem) : String :=
  let total := entries.length
  if countStatus entries "SUCCEEDED" = total then "SUCCESS"
  else if ((countStatus entries "FAILED" + countStatus entries "CANCELLED" : ℚ) ≥
      (total : ℚ) * (0.2 : ℚ)) then "FAILED"
  else if 0 < countStatus entries "IN_PROGRESS" then "IN_PROGRESS"
  else "QUEUED"

/-- Modelled from the spec: `compute_aggregate` as section 4.4 of the
specification words it, with `abort_threshold_fraction = 0.20`,
`min_sample_size = 1` and the ceiling written as the Nat expression
`(total + 4) / 5 = ⌈total / 5⌉`.  This definition exists only to be
compared with `overallStatus`, which is embedded from the source. -/
def specAggregate (entries : List JobItem) : String :=
  let total := entries.length
  if countStatus entries "SUCCEEDED" = total then "SUCCESS"
  else if 1 ≤ total ∧
      (total + 4) / 5 ≤ countStatus entries "FAILED" + countStatus entries "CANCELLED" then
    "FAILED"
  else if 0 < countStatus entries "IN_PROGRESS" then "IN_PROGRESS"
  else "QUEUED"

/-- The query `job_id = jid` over the `ota-jobs` table
(ota_manager.py lines 256-258 and 334-336). -/
def queryJob (table : List JobItem) (jid : String) : List JobItem :=
  table.filter (fun r => r.job_id == jid)

/-- `get_ota_job_status` (ota_manager.py lines 244-312): query the
job's entries, return 404 when none exist, otherwise the aggregate.
The `describe_job` call against AWS IoT only fills the informational
`iot_job` body field and is not modelled. -/
def get_ota_job_status (table : List JobItem) (jid : String) : Resp :=
  let job_entries := queryJob table jid
  if job_entries.isEmpty then
    { statusCode := 404, body := some { error := some "OTA job not found" } }
  else
    { statusCode := 200,
      body := some
        { job_id := some jid,
          status := some (overallStatus job_entries),
          total_devices := some job_entries.length } }

/-- Statuses the specification calls terminal for a device record. -/
def isTerminal (s : String) : Bool :=
  s == "SUCCEEDED" || s == "FAILED" || s == "CANCELLED"

/-- Whether the table holds an item with key `(jid, did)`. -/
def hasKey (table : List JobItem) (jid did : String) : Bool :=
  table.any (fun r => r.job_id == jid && r.device_id == did)

/-- Key lookup in the `ota-jobs` table. -/
def findItem (table : List JobItem) (jid did : String) : Option JobItem :=
  table.find? (fun r => r.job_id == jid && r.device_id == did)

/-- The `update_item` call of `handle_job_status_update`
(ota_manager.py lines 397-406): `SET status, last_updated,
status_details` on key `(jid, did)`.  DynamoDB `UpdateItem` is an
upsert: when the key is absent a fresh item carrying only the key and
the SET attributes is created. -/
def update_item_status (table : List JobItem) (jid did new_status now : String)
    (details : StatusInfo) : List JobItem :=
  if hasKey table jid did then
    table.map (fun r =>
      if r.job_id == jid && r.device_id == did then
        { r with status := some new_status, last_updated := some now,
                 status_details := some details }
      else r)
  else
    table ++ [{ job_id := jid, device_id := did, status := some new_status,
                last_updated := some now, status_details := some details }]

/-- The `update_item` call of `cancel_ota_job` (ota_manager.py lines
339-347): `SET status = CANCELLED, cancelled_at` on key `(jid, did)`,
again with DynamoDB upsert semantics. -/
def update_item_cancel (table : List JobItem) (jid did now : String) : List JobItem :=
  if hasKey table jid did then
    table.map (fun r =>
      if r.job_id == jid && r.device_id == did then
        { r with status := some "CANCELLED", cancelled_at := some now }
      else r)
  else
    table ++ [{ job_id := jid, device_id := did, status := some "CANCELLED",
                cancelled_at := some now }]

/-- Python `str.split(sep)` for the one-character separator used at
ota_manager.py line 382 (`source_topic.split("/")`), embedded
structurally over the character list: splits at every occurrence of
`c`, keeping empty fields, and yields `[""]` on the empty string —
exactly the Python semantics of `split` with an explicit separator. -/
def splitChar (c : Char) (s : String) : List String :=
  (s.data.foldr (fun ch acc =>
    match acc with
    | [] => [[ch]]
    | cur :: rest => if ch = c then [] :: (cur :: rest) else (ch :: cur) :: rest)
    [[]]).map (fun l => String.mk l)

/-- A device status event as delivered by the IoT rule: a dict with an
optional `source_topic` key and an optional `status` dict
(`event.get("source_topic", "")`, `event.get("status", {})`). -/
structure UpdateEvent where
  source_topic : Option String
  status : Option StatusInfo
  deriving DecidableEq, Repr

/-- The topic parts of an event, as line 382 computes them. -/
def topicParts (e : UpdateEvent) : List String :=
  splitChar '/' ((e.source_topic).getD "")

/-- `device_id = topic_parts[2]` (line 384). -/
def extractDeviceId (e : UpdateEvent) : String := (topicParts e).getD 2 ""

/-- `job_id = topic_parts[4]` (line 385). -/
def extractJobId (e : UpdateEvent) : String := (topicParts e).getD 4 ""

/-- `status_info = event.get("status", {})` (line 393). -/
def eventInfo (e : UpdateEvent) : StatusInfo := (e.status).getD { status := none }

/-- `new_status = status_info.get("status", "UNKNOWN")` (line 394). -/
def eventStatus (e : UpdateEvent) : String := ((eventInfo e).status).getD "UNKNOWN"

/-- `handle_job_status_update` (ota_manager.py lines 367-419): split
the topic on `/`; with fewer than 5 parts return a 400 response and
leave the table alone; otherwise take `device_id = parts[2]`,
`job_id = parts[4]`, extract the new status (default `"UNKNOWN"`) and
unconditionally `update_item` the record — there is no key-existence
check, no read of the current status, and no comparison of event
times. -/
def handle_job_status_update (table : List JobItem) (event : UpdateEvent)
    (now : String) : List JobItem × Resp :=
  let topic_parts := topicParts event
  if 5 ≤ topic_parts.length then
    let device_id := topic_parts.getD 2 ""
    let job_id := topic_parts.getD 4 ""
    let status_info := eventInfo event
    let new_status := (status_info.status).getD "UNKNOWN"
    (update_item_status table job_id device_id new_status now status_info,
     { statusCode := 200,
       message := some ("Updated job status for device " ++ device_id) })
  else
    (table, { statusCode := 400, error := some "Invalid topic format" })

/-- `cancel_ota_job` (ota_manager.py lines 315-364): the AWS IoT
`cancel_job` call is external and swallows `ResourceNotFoundException`;
then every item returned by the query on `job_id` is updated to
`CANCELLED` via `update_item`, and a 200 response with body status
`CANCELLED` is returned — also when the query found no items. -/
def cancel_ota_job (table : List JobItem) (jid now : String) : List JobItem × Resp :=
  let items := queryJob table jid
  let table2 := items.foldl (fun t item => update_item_cancel t jid item.device_id now) table
  (table2,
   { statusCode := 200,
     body := some { job_id := some jid, status := some "CANCELLED",
                    message := some "OTA job cancelled successfully" } })

/-- DynamoDB `put_item`: replaces the item with the same key, or
appends a new one. -/
def put_item (table : List JobItem) (item : JobItem) : List JobItem :=
  if hasKey table item.job_id item.device_id then
    table.map (fun r =>
      if r.job_id == item.job_id && r.device_id == item.device_id then item else r)
  else table ++ [item]

/-- Outcome of `create_ota_job`: either a non-`ClientError` Python
exception escapes the function (its `except` clause at line 236 catches
only `ClientError`), carrying the DynamoDB table state at the moment it
escapes, or a response together with the resulting table. -/
inductive CreateOutcome
  | uncaughtIndexError (table : List JobItem)
  | uncaughtParamValidationError (table : List JobItem)
  | result (table : List JobItem) (resp : Resp)
  deriving DecidableEq, Repr

/-- Whether a `create_ota_job` outcome is a returned response, as
opposed to an exception escaping the function to its caller. -/
def isResultResponse : CreateOutcome → Bool
  | CreateOutcome.result _ _ => true
  | _ => false

/-- `create_ota_job` (ota_manager.py lines 135-241).
`firmware_versions` is the set of `(device_type, version)` keys present
in the firmware-versions table; a missing key yields 404.  The targets
list comprehension of line 189 evaluates
`...get_credentials().access_key.split(":")[4]` once per target
device; `accessKeyField4 = none` models that this index raises
`IndexError` (an AWS access key contains no `:`), which the
`ClientError`-only handler does not catch — for an empty
`device_targets` the comprehension body never runs.  With an empty
`device_targets`, the boto3 `create_job` call itself raises: the
service model requires at least one member in `targets` (JobTargets min
1), and botocore's client-side parameter validation raises
`ParamValidationError` before any network call.  `ParamValidationError`
is a `BotoCoreError`, not a `ClientError`, so the `except` at line 236
does not catch it and it escapes `create_ota_job` (the Step Functions
handler path, lines 439-446, has no try either).  On success the
function writes one `QUEUED` item per target and returns 201. -/
def create_ota_job (firmware_versions : List (String × String))
    (table : List JobItem) (device_targets : List String)
    (firmware_version device_type : String) (uuid8 now jobArn : String)
    (accessKeyField4 : Option String) : CreateOutcome :=
  if ¬ (firmware_versions.contains (device_type, firmware_version)) then
    .result table
      { statusCode := 404,
        body := some { error := some ("Firmware version " ++ firmware_version ++
          " not found for device type " ++ device_type) } }
  else if device_targets ≠ [] ∧ accessKeyField4 = none then
    .uncaughtIndexError table
  else if device_targets.isEmpty then
    .uncaughtParamValidationError table
  else
    let job_id := "ota-" ++ device_type ++ "-" ++ firmware_version ++ "-" ++ uuid8
    let table2 := device_targets.foldl (fun t d => put_item t
      { job_id := job_id, device_id := d, device_type := some device_type,
        firmware_version := some firmware_version, status := some "QUEUED",
        created_at := some now, iot_job_arn := some jobArn }) table
    .result table2
      { statusCode := 201,
        body := some { job_id := some job_id, status := some "CREATED" } }

/-- Deliver a batch of status events (with their wall-clock stamps)
through `handle_job_status_update`. -/
def applyEvents (table : List JobItem) (evs : List (UpdateEvent × String)) : List JobItem :=
  evs.foldl (fun t ev => (handle_job_status_update t ev.1 ev.2).1) table

/-- Terminal outcomes of the Step Functions workflow of
ota_stack.py lines 214-238.  `runtimeError` is an execution aborted by
a `States.Runtime` failure (a JSONPath referenced by the definition is
absent from the execution state; the machine configures no Catch);
`timedOut` is an abort by the 30-minute state machine timeout
(`States.Timeout`). -/
inductive WfOutcome
  | success
  | failedRolledBack
  | runtimeError
  | timedOut
  deriving DecidableEq, Repr

/-- The wait/check loop of the OTA workflow (ota_stack.py lines
214-238), entered after `CreateOtaJob` stored its Lambda response at
`$.ota_result.Payload` (the `createResp` argument).  One iteration is a
`Wait` of 2 minutes (during which the next batch of `rounds` events is
delivered) followed by `CheckDeploymentStatus` and the `Choice`.  The
JSONPath plumbing is modelled faithfully:
`CheckDeploymentStatus` passes `job_id.$ = $.ota_result.Payload.job_id`
(ota_stack.py line 189) and the `Choice` compares
`$.status_result.Payload.status` (lines 220, 224) — both top-level keys
of the respective Lambda responses.  A parameter or Choice-rule path
that matches nothing fails the state with `States.Runtime`, and with no
Catch configured the execution aborts there; since the handler nests
`job_id` and `status` under `body`, the program's own responses make
every execution abort at the first check.  `SUCCESS` succeeds, `FAILED`
invokes the rollback task (`cancel_ota_job`) and fails, any other
resolved status loops back to the `Wait`.  The fuel argument is the
number of wait cycles the 30-minute state machine timeout leaves room
for (15); exhausting it aborts the execution with `States.Timeout`,
running no further state. -/
def runOtaWorkflow : Nat → Resp → List JobItem →
    List (List (UpdateEvent × String)) → String → WfOutcome × List JobItem
  | 0, _, table, _, _ => (.timedOut, table)
  | n + 1, createResp, table, rounds, cNow =>
    let table2 := applyEvents table (rounds.headD [])
    match createResp.job_id with
    | none => (.runtimeError, table2)
    | some jid =>
      let resp := get_ota_job_status table2 jid
      match resp.status with
      | none => (.runtimeError, table2)
      | some overall =>
        if overall == "SUCCESS" then (.success, table2)
        else if overall == "FAILED" then
          (.failedRolledBack, (cancel_ota_job table2 jid cNow).1)
        else runOtaWorkflow n createResp table2 rounds.tail cNow

/-- The record change `cancel_ota_job` applies to an item:
`SET status = CANCELLED, cancelled_at = now`. -/
def cancelMark (now : String) (r : JobItem) : JobItem :=
  { r with status := some "CANCELLED", cancelled_at := some now }

/-- The sum of the tallies of the `status_counts` dict built at
ota_manager.py lines 280-283: the dict holds one entry per distinct
status value among the entries, each counting its occurrences. -/
def countsSum (entries : List JobItem) : Nat :=
  (((entries.map statusOf).dedup).map (fun s => countStatus entries s)).sum

/-- Sample record in a terminal status, for concrete witnesses. -/
def recSucceeded : JobItem :=
  { job_id := "job1", device_id := "dev1", status := some "SUCCEEDED" }

/-- Sample record in the initial status. -/
def recQueued : JobItem :=
  { job_id := "job1", device_id := "dev1", status := some "QUEUED" }

/-- Sample record belonging to a different job. -/
def recOtherJob : JobItem :=
  { job_id := "other", device_id := "dev1", status := some "QUEUED" }

/-- Sample status event reporting FAILED for `(job1, dev1)`. -/
def evFailed : UpdateEvent :=
  { source_topic := some "$aws/things/dev1/jobs/job1/update",
    status := some { status := some "FAILED" } }

/-- Sample status event reporting IN_PROGRESS for `(job1, dev1)`. -/
def evInProgress : UpdateEvent :=
  { source_topic := some "$aws/things/dev1/jobs/job1/update",
    status := some { status := some "IN_PROGRESS" } }

/-- Sample status event reporting SUCCEEDED for `(job1, dev1)`. -/
def evSucceeded : UpdateEvent :=
  { source_topic := some "$aws/things/dev1/jobs/job1/update",
    status := some { status := some "SUCCEEDED" } }

/-- Sample status event for the unknown device `dev2` of `job1`. -/
def evSucceededDev2 : UpdateEvent :=
  { source_topic := some "$aws/things/dev2/jobs/job1/update",
    status := some { status := some "SUCCEEDED" } }

/-- The table `create_ota_job` produces for the sample one-device job
(firmware 1.0.1 for device type sensor, target dev1, uuid fragment u1,
creation time t1, job arn arn1). -/
def createdTable : List JobItem :=
  [{ job_id := "ota-sensor-1.0.1-u1", device_id := "dev1",
     status := some "QUEUED", device_type := some "sensor",
     firmware_version := some "1.0.1", created_at := some "t1",
     iot_job_arn := some "arn1" }]

/-- The 201 response `create_ota_job` returns for the sample job: the
new job's id sits inside `body`; no top-level `job_id` key exists. -/
def createdResp : Resp :=
  { statusCode := 201,
    body := some { job_id := some "ota-sensor-1.0.1-u1",
                   status := some "CREATED" } }

theorem rat_threshold_iff (k n : ℕ) :
    ((k : ℚ) ≥ (n : ℚ) * (0.2 : ℚ)) ↔ (n + 4) / 5 ≤ k := by
  have h5 : ((k : ℚ) ≥ (n : ℚ) * (0.2 : ℚ)) ↔ (n : ℚ) ≤ (k : ℚ) * 5 := by
    constructor
    · intro h
      have := mul_le_mul_of_nonneg_right h (by norm_num : (0 : ℚ) ≤ 5)
      calc (n : ℚ) = (n : ℚ) * (0.2 : ℚ) * 5 := by ring
        _ ≤ (k : ℚ) * 5 := this
    · intro h
      have := mul_le_mul_of_nonneg_right h (by norm_num : (0 : ℚ) ≤ (0.2 : ℚ))
      calc (n : ℚ) * (0.2 : ℚ) ≤ (k : ℚ) * 5 * (0.2 : ℚ) := this
      _ = (k : ℚ) := by ring
  rw [h5]
  have hcast : ((n : ℚ) ≤ (k : ℚ) * 5) ↔ n ≤ k * 5 := by
    exact_mod_cast Iff.rfl
  rw [hcast]
  omega

theorem overallStatus_eq_specAggregate (entries : List JobItem)
    (hne : entries ≠ []) : overallStatus entries = specAggregate entries := by
  unfold overallStatus specAggregate
  have htot : 1 ≤ entries.length := by
    cases entries with
    | nil => exact absurd rfl hne
    | cons a l => exact Nat.succ_le_succ (Nat.zero_le _)
  by_cases h1 : countStatus entries "SUCCEEDED" = entries.length
  · simp [h1]
  · simp only [h1, if_false]
    have hiff :
        ((countStatus entries "FAILED" + countStatus entries "CANCELLED" : ℚ) ≥
          (entries.length : ℚ) * (0.2 : ℚ)) ↔
        (1 ≤ entries.length ∧
          (entries.length + 4) / 5 ≤
            countStatus entries "FAILED" + countStatus entries "CANCELLED") := by
      rw [← Nat.cast_add, rat_threshold_iff]
      constructor
      · intro h; exact ⟨htot, h⟩
      · intro h; exact h.2
    by_cases h2 : ((countStatus entries "FAILED" + countStatus entries "CANCELLED" : ℚ) ≥
        (entries.length : ℚ) * (0.2 : ℚ))
    · rw [if_pos h2, if_pos (hiff.mp h2)]
    · rw [if_neg h2, if_neg (fun hc => h2 (hiff.mpr hc))]

/-- C1: on a non-empty record set, the overall-status decision embedded
from `get_ota_job_status` agrees with the claimed policy: SUCCESS when
all records succeeded (checked first), else FAILED when
failed-plus-cancelled reaches the inclusive ceiling of 20% of the
total (with `min_sample_size = 1`), else IN_PROGRESS when some record
is in progress, else QUEUED. -/
theorem aggregate_matches_spec_policy (entries : List JobItem)
    (hne : entries ≠ []) : overallStatus entries = specAggregate entries :=
  overallStatus_eq_specAggregate entries hne

theorem aggregate_matches_spec_policy_witness :
    overallStatus [{ job_id := "j", device_id := "d", status := some "FAILED" }] =
      specAggregate [{ job_id := "j", device_id := "d", status := some "FAILED" }] :=
  aggregate_matches_spec_policy
    [{ job_id := "j", device_id := "d", status := some "FAILED" }] (by simp)

theorem find?_map_ite (p : JobItem → Bool) (f : JobItem → JobItem)
    (hp : ∀ r, p (f r) = p r) (t : List JobItem) :
    (t.map (fun r => if p r then f r else r)).find? p = (t.find? p).map f := by
  induction t with
  | nil => rfl
  | cons a as ih =>
    by_cases hk : p a = true
    · rw [List.map_cons, if_pos hk, List.find?_cons_of_pos _ ((hp a).trans hk),
        List.find?_cons_of_pos _ hk]
      rfl
    · rw [List.map_cons, if_neg hk, List.find?_cons_of_neg _ hk,
        List.find?_cons_of_neg _ hk, ih]

theorem hasKey_of_findItem (t : List JobItem) (jid did : String) (r : JobItem)
    (h : findItem t jid did = some r) : hasKey t jid did = true := by
  unfold findItem at h
  unfold hasKey
  rw [List.any_eq_true]
  refine ⟨r, List.mem_of_find?_eq_some h, ?_⟩
  have h3 := List.find?_some h
  simpa using h3

theorem findItem_update_status (t : List JobItem) (jid did s now : String)
    (d : StatusInfo) (r : JobItem) (h : findItem t jid did = some r) :
    findItem (update_item_status t jid did s now d) jid did
      = some { r with status := some s, last_updated := some now,
                      status_details := some d } := by
  unfold update_item_status
  rw [if_pos (hasKey_of_findItem t jid did r h)]
  have := find?_map_ite (fun x => x.job_id == jid && x.device_id == did)
    (fun x => { x with status := some s, last_updated := some now,
                       status_details := some d }) (fun _ => rfl) t
  unfold findItem
  rw [this]
  unfold findItem at h
  rw [h]
  rfl

theorem handle_sets_status (table : List JobItem) (e : UpdateEvent) (now : String)
    (r : JobItem) (hlen : 5 ≤ (topicParts e).length)
    (hfind : findItem table (extractJobId e) (extractDeviceId e) = some r) :
    findItem (handle_job_status_update table e now).1
        (extractJobId e) (extractDeviceId e)
      = some { r with status := some (eventStatus e), last_updated := some now,
                      status_details := some (eventInfo e) } := by
  unfold handle_job_status_update
  rw [if_pos hlen]
  exact findItem_update_status table (extractJobId e) (extractDeviceId e)
    (eventStatus e) now (eventInfo e) r hfind

/-- C2 counterexample: the record for `(job1, dev1)` already stands in
the terminal status SUCCEEDED, yet applying a later FAILED status event
through `handle_job_status_update` changes its status to FAILED. -/
theorem terminal_sticky_counterexample :
    isTerminal (statusOf recSucceeded) = true
    ∧ (findItem (handle_job_status_update [recSucceeded] evFailed "t1").1
        "job1" "dev1").map statusOf = some "FAILED"
    ∧ some "FAILED" ≠ some "SUCCEEDED" := by
  decide

/-- C2 (amended): `handle_job_status_update` applies the event's status
unconditionally — there is no read of the stored status and no terminal
guard — so a record in a terminal status is overwritten like any other:
after the event its status is the status the event carries. -/
theorem terminal_record_overwritten (table : List JobItem) (e : UpdateEvent)
    (now : String) (r : JobItem)
    (hlen : 5 ≤ (topicParts e).length)
    (hfind : findItem table (extractJobId e) (extractDeviceId e) = some r)
    (_hterm : isTerminal (statusOf r) = true) :
    (findItem (handle_job_status_update table e now).1
        (extractJobId e) (extractDeviceId e)).map statusOf
      = some (eventStatus e) := by
  rw [handle_sets_status table e now r hlen hfind]
  rfl

theorem terminal_record_overwritten_witness :
    (findItem (handle_job_status_update [recSucceeded] evInProgress "t1").1
        (extractJobId evInProgress) (extractDeviceId evInProgress)).map statusOf
      = some (eventStatus evInProgress) :=
  terminal_record_overwritten [recSucceeded] evInProgress "t1" recSucceeded
    (by decide) (by decide) (by decide)

/-- C3 counterexample: two status events for the same non-terminal
record, each carried with its own wall-clock stamp, delivered in the
two possible orders, end in different final tables: the record reads
SUCCEEDED in one order and IN_PROGRESS in the other, so delivery order
does not converge. -/
theorem event_order_counterexample :
    (handle_job_status_update
        (handle_job_status_update [recQueued] evInProgress "t1").1 evSucceeded "t2").1
      ≠ (handle_job_status_update
        (handle_job_status_update [recQueued] evSucceeded "t2").1 evInProgress "t1").1 := by
  decide

/-- C3 (amended): arrival order decides.  After two events addressed to
the same existing record are delivered, the record's status is the
status of the event that arrived last — the handler stores no event
time and compares none, so the outcome depends on delivery order. -/
theorem last_arrival_wins (table : List JobItem) (e1 e2 : UpdateEvent)
    (now1 now2 : String) (r : JobItem)
    (hlen1 : 5 ≤ (topicParts e1).length) (hlen2 : 5 ≤ (topicParts e2).length)
    (hj : extractJobId e2 = extractJobId e1)
    (hd : extractDeviceId e2 = extractDeviceId e1)
    (hfind : findItem table (extractJobId e1) (extractDeviceId e1) = some r) :
    (findItem (handle_job_status_update
        (handle_job_status_update table e1 now1).1 e2 now2).1
        (extractJobId e1) (extractDeviceId e1)).map statusOf
      = some (eventStatus e2) := by
  have h1 := handle_sets_status table e1 now1 r hlen1 hfind
  have h2 := handle_sets_status (handle_job_status_update table e1 now1).1 e2 now2
    _ hlen2 (by rw [hj, hd]; exact h1)
  rw [hj, hd] at h2
  rw [h2]
  rfl

theorem last_arrival_wins_witness :
    (findItem (handle_job_status_update
        (handle_job_status_update [recQueued] evInProgress "t1").1 evSucceeded "t2").1
        (extractJobId evInProgress) (extractDeviceId evInProgress)).map statusOf
      = some (eventStatus evSucceeded) :=
  last_arrival_wins [recQueued] evInProgress evSucceeded "t1" "t2" recQueued
    (by decide) (by decide) (by decide) (by decide) (by decide)

/-- C4 counterexample: a status event whose `(job_id, device_id)` pair
matches no record is not dropped: delivered against an empty table it
creates a record, so the job's record set changes. -/
theorem unknown_key_drop_counterexample :
    (handle_job_status_update [] evFailed "t1").1 ≠ [] := by
  decide

/-- C4 (amended): for an event whose `(job_id, device_id)` matches no
record, `handle_job_status_update` raises no error — it answers 200 —
but it does not drop the event either: the DynamoDB `update_item`
upserts, appending a fresh record carrying the key and the event's
status. -/
theorem unknown_key_creates_record (table : List JobItem) (e : UpdateEvent)
    (now : String) (hlen : 5 ≤ (topicParts e).length)
    (hmiss : hasKey table (extractJobId e) (extractDeviceId e) = false) :
    (handle_job_status_update table e now).1
      = table ++ [{ job_id := extractJobId e, device_id := extractDeviceId e,
                    status := some (eventStatus e), last_updated := some now,
                    status_details := some (eventInfo e) }]
    ∧ (handle_job_status_update table e now).2.statusCode = 200 := by
  unfold handle_job_status_update
  rw [if_pos hlen]
  constructor
  · show update_item_status table (extractJobId e) (extractDeviceId e)
      (eventStatus e) now (eventInfo e) = _
    unfold update_item_status
    rw [if_neg (by rw [hmiss]; exact Bool.false_ne_true)]
  · rfl

theorem unknown_key_creates_record_witness :
    (handle_job_status_update [] evFailed "t1").1
      = [] ++ [{ job_id := extractJobId evFailed, device_id := extractDeviceId evFailed,
                 status := some (eventStatus evFailed), last_updated := some "t1",
                 status_details := some (eventInfo evFailed) }]
    ∧ (handle_job_status_update [] evFailed "t1").2.statusCode = 200 :=
  unknown_key_creates_record [] evFailed "t1" (by decide) (by decide)

/-- C9 counterexample: the overall-status computation of
`get_ota_job_status`, applied to an empty record set, answers SUCCESS —
the all-succeeded check `0 = 0` fires first — not QUEUED. -/
theorem empty_aggregate_counterexample :
    overallStatus [] = "SUCCESS" ∧ ("SUCCESS" : String) ≠ "QUEUED" := by
  exact ⟨rfl, by decide⟩

/-- C9 (amended): `get_ota_job_status` never applies the aggregate to
an empty record set — a job without records is answered 404 before the
computation runs — and the aggregate computation itself on total = 0
yields SUCCESS, since the all-succeeded check is evaluated first. -/
theorem empty_record_set_aggregate (table : List JobItem) (jid : String)
    (h : queryJob table jid = []) :
    (get_ota_job_status table jid).statusCode = 404
    ∧ overallStatus [] = "SUCCESS" := by
  constructor
  · unfold get_ota_job_status
    rw [h]
    rfl
  · rfl

theorem empty_record_set_aggregate_witness :
    (get_ota_job_status [] "job1").statusCode = 404
    ∧ overallStatus [] = "SUCCESS" :=
  empty_record_set_aggregate [] "job1" rfl

/-- C10: cancelling a job for which no device execution records exist
returns 200 with body status CANCELLED and leaves the table exactly as
it was — the missing IoT job's `ResourceNotFoundException` is swallowed
and the empty query drives no updates, so no error reaches the
caller. -/
theorem cancel_nonexistent_job (table : List JobItem) (jid now : String)
    (h : queryJob table jid = []) :
    cancel_ota_job table jid now
      = (table,
         { statusCode := 200,
           body := some { job_id := some jid, status := some "CANCELLED",
                          message := some "OTA job cancelled successfully" } }) := by
  unfold cancel_ota_job
  rw [h]
  rfl

theorem cancel_nonexistent_job_witness :
    cancel_ota_job [recOtherJob] "job1" "t1"
      = ([recOtherJob],
         { statusCode := 200,
           body := some { job_id := some "job1", status := some "CANCELLED",
                          message := some "OTA job cancelled successfully" } }) :=
  cancel_nonexistent_job [recOtherJob] "job1" "t1" (by decide)

theorem map_congr_mem {α β : Type} (l : List α) (f g : α → β)
    (h : ∀ a ∈ l, f a = g a) : l.map f = l.map g := by
  induction l with
  | nil => rfl
  | cons a as ih =>
    rw [List.map_cons, List.map_cons, h a (by simp),
      ih (fun x hx => h x (by simp [hx]))]

theorem hasKey_map_ite (p : JobItem → Bool) (f : JobItem → JobItem)
    (hj : ∀ r, (f r).job_id = r.job_id) (hd : ∀ r, (f r).device_id = r.device_id)
    (t : List JobItem) (jid did : String) :
    hasKey (t.map (fun r => if p r then f r else r)) jid did = hasKey t jid did := by
  unfold hasKey
  rw [List.any_map]
  congr 1
  funext r
  by_cases hp : p r = true
  · simp [Function.comp, hp, hj r, hd r]
  · simp [Function.comp, hp]

theorem update_item_cancel_present (t : List JobItem) (jid did now : String)
    (h : hasKey t jid did = true) :
    update_item_cancel t jid did now
      = t.map (fun r => if r.job_id == jid && r.device_id == did
          then cancelMark now r else r) := by
  unfold update_item_cancel cancelMark
  rw [if_pos h]

theorem foldl_cancel_eq_map (jid now : String) :
    ∀ (items t : List JobItem),
      (∀ it ∈ items, hasKey t jid it.device_id = true) →
      items.foldl (fun acc it => update_item_cancel acc jid it.device_id now) t
        = t.map (fun r =>
            if r.job_id == jid && items.any (fun it => r.device_id == it.device_id)
            then cancelMark now r else r)
  | [], t, _ => by simp
  | it :: rest, t, h => by
    rw [List.foldl_cons,
      update_item_cancel_present t jid it.device_id now (h it (by simp)),
      foldl_cancel_eq_map jid now rest _ (fun it2 hit2 => by
        rw [hasKey_map_ite (fun r => r.job_id == jid && r.device_id == it.device_id)
          (cancelMark now) (fun _ => rfl) (fun _ => rfl) t jid it2.device_id]
        exact h it2 (List.mem_cons_of_mem _ hit2)),
      List.map_map]
    apply map_congr_mem
    intro r _
    by_cases hb1 : (r.job_id == jid) = true
    · by_cases hb2 : (r.device_id == it.device_id) = true
      · by_cases hb3 : (rest.any (fun it2 => r.device_id == it2.device_id)) = true
        · simp [Function.comp, cancelMark, hb1, hb2, hb3]
        · simp [Function.comp, cancelMark, hb1, hb2, hb3]
      · simp [Function.comp, cancelMark, hb1, hb2]
    · simp [Function.comp, cancelMark, hb1]

theorem cancel_fold_result (table : List JobItem) (jid now : String) :
    (cancel_ota_job table jid now).1
      = table.map (fun r => if r.job_id == jid then cancelMark now r else r) := by
  show (queryJob table jid).foldl
      (fun t item => update_item_cancel t jid item.device_id now) table = _
  rw [foldl_cancel_eq_map jid now (queryJob table jid) table (fun it hit => by
    unfold queryJob at hit
    have hmem : it ∈ table := (List.mem_filter.mp hit).1
    have hpred : (it.job_id == jid) = true := (List.mem_filter.mp hit).2
    unfold hasKey
    rw [List.any_eq_true]
    exact ⟨it, hmem, by simp [hpred]⟩)]
  apply map_congr_mem
  intro r hr
  by_cases hb : (r.job_id == jid) = true
  · have hrq : r ∈ queryJob table jid := List.mem_filter.mpr ⟨hr, hb⟩
    have hany : ((queryJob table jid).any
        (fun it => r.device_id == it.device_id)) = true :=
      List.any_eq_true.mpr ⟨r, hrq, by simp⟩
    simp [hb, hany]
  · simp [hb]

/-- C6 counterexample: a record of the job already in the terminal
status SUCCEEDED is not left unchanged by cancellation — it is
overwritten to CANCELLED. -/
theorem cancel_overwrites_terminal_counterexample :
    isTerminal (statusOf recSucceeded) = true
    ∧ (findItem (cancel_ota_job [recSucceeded] "job1" "t9").1
        "job1" "dev1").map statusOf = some "CANCELLED" := by
  decide

/-- C6 (amended): `cancel_ota_job` sets CANCELLED (with `cancelled_at`)
on every record of the job — records already in the terminal statuses
SUCCEEDED or FAILED included, since the update loop carries no status
guard — and leaves records of other jobs untouched. -/
theorem cancel_job_cancels_every_record (table : List JobItem) (jid now : String) :
    (cancel_ota_job table jid now).1
      = table.map (fun r => if r.job_id == jid then cancelMark now r else r) :=
  cancel_fold_result table jid now

theorem countStatus_eq_count (entries : List JobItem) (s : String) :
    countStatus entries s = (entries.map statusOf).count s := by
  unfold countStatus
  show (List.filter (fun e => statusOf e == s) entries).length = _
  rw [← List.countP_eq_length_filter (fun e => statusOf e == s) entries]
  show _ = List.countP (fun x => x == s) (entries.map statusOf)
  rw [List.countP_map]
  rfl

theorem countsSum_eq_length (entries : List JobItem) :
    countsSum entries = entries.length := by
  unfold countsSum
  rw [map_congr_mem ((entries.map statusOf).dedup) _ _
    (fun s _ => countStatus_eq_count entries s),
    List.sum_map_count_dedup_eq_length, List.length_map]

theorem length_filter_map_preserve (g : JobItem → JobItem)
    (hg : ∀ r, (g r).job_id = r.job_id) (t : List JobItem) (jid : String) :
    ((t.map g).filter (fun r => r.job_id == jid)).length
      = (t.filter (fun r => r.job_id == jid)).length := by
  induction t with
  | nil => rfl
  | cons a as ih =>
    rw [List.map_cons]
    simp only [List.filter_cons, hg a]
    by_cases hb : (a.job_id == jid) = true
    · rw [if_pos hb, if_pos hb, List.length_cons, List.length_cons, ih]
    · rw [if_neg hb, if_neg hb, ih]

theorem queryJob_cancel_length (table : List JobItem) (jid now : String) :
    (queryJob ((cancel_ota_job table jid now).1) jid).length
      = (queryJob table jid).length := by
  rw [cancel_fold_result]
  unfold queryJob
  exact length_filter_map_preserve _
    (fun r => by
      by_cases h : (r.job_id == jid) = true
      · simp [h, cancelMark]
      · simp [h]) table jid

/-- C7 counterexample: a job tracking the single targeted device dev1
gains a second record when a status event for the untargeted device
dev2 arrives, so the sum of the per-device status counts becomes 2 and
no longer equals the original target-device count 1. -/
theorem counts_sum_counterexample :
    countsSum (queryJob [recQueued] "job1") = 1
    ∧ countsSum (queryJob
        (handle_job_status_update [recQueued] evSucceededDev2 "t3").1 "job1") = 2
    ∧ (2 : Nat) ≠ 1 := by
  decide

/-- C7 (amended): the sum of the per-status tallies always equals the
current number of device records of the job, and cancellation preserves
that number; the record set is however not pinned to the original
targets — a status event for an unknown device inserts a new record —
so the sum tracks the current record count, not the originally targeted
device count. -/
theorem counts_sum_equals_current_records (table : List JobItem) (jid now : String) :
    countsSum (queryJob table jid) = (queryJob table jid).length
    ∧ (queryJob ((cancel_ota_job table jid now).1) jid).length
        = (queryJob table jid).length :=
  ⟨countsSum_eq_length (queryJob table jid), queryJob_cancel_length table jid now⟩

/-- C5 counterexample: with the firmware version registered, invoking
`create_ota_job` with an empty device_targets list does not fail with
InvalidArgument — it returns no response at all: botocore's client-side
parameter validation of the empty `targets` list raises
`ParamValidationError`, which is not a `ClientError` and escapes the
function uncaught (with the table untouched). -/
theorem create_empty_targets_counterexample :
    create_ota_job [("sensor", "1.0.1")] [] [] "1.0.1" "sensor" "u1" "t1" "arn1"
        (some "acct")
      = CreateOutcome.uncaughtParamValidationError []
    ∧ isResultResponse (create_ota_job [("sensor", "1.0.1")] [] [] "1.0.1"
        "sensor" "u1" "t1" "arn1" (some "acct")) = false := by
  constructor
  · decide
  · decide

/-- C5 (amended): called with an empty device_targets list,
`create_ota_job` persists zero device execution records — the table
state is unchanged — but it does not fail InvalidArgument: it returns
404 when the firmware version is unknown, and otherwise the boto3
client-side `ParamValidationError` for the empty `targets` list (which
is not a `ClientError`) escapes the function as an uncaught
exception. -/
theorem create_empty_targets_no_records (fw : List (String × String))
    (table : List JobItem) (fv dt u now arn : String) (ak : Option String) :
    create_ota_job fw table [] fv dt u now arn ak
      = (if fw.contains (dt, fv) then
          CreateOutcome.uncaughtParamValidationError table
        else
          CreateOutcome.result table
            { statusCode := 404,
              body := some { error := some ("Firmware version " ++ fv ++
                " not found for device type " ++ dt) } }) := by
  unfold create_ota_job
  by_cases h : fw.contains (dt, fv) = true
  · rw [if_neg (by simpa using h), if_neg (by simp),
      if_pos (show ([] : List String).isEmpty = true from rfl), if_pos h]
  · rw [if_pos (by simpa using h), if_neg (by simpa using h)]

theorem create_result_no_top_job_id (fw : List (String × String))
    (table : List JobItem) (targets : List String)
    (fv dt u now arn : String) (ak : Option String)
    (tbl : List JobItem) (resp : Resp)
    (h : create_ota_job fw table targets fv dt u now arn ak
      = CreateOutcome.result tbl resp) :
    resp.job_id = none := by
  unfold create_ota_job at h
  by_cases h1 : fw.contains (dt, fv) = true
  · rw [if_neg (by simpa using h1)] at h
    by_cases h2 : targets ≠ [] ∧ ak = none
    · rw [if_pos h2] at h
      exact CreateOutcome.noConfusion h
    · rw [if_neg h2] at h
      by_cases h3 : targets.isEmpty = true
      · rw [if_pos h3] at h
        exact CreateOutcome.noConfusion h
      · rw [if_neg h3] at h
        injection h with ht hr
        rw [← hr]
  · rw [if_pos (by simpa using h1)] at h
    injection h with ht hr
    rw [← hr]

/-- C8 (amended): no execution reaches the 30-minute timeout or
performs a rollback on timeout: whatever response `create_ota_job`
returned, its top-level `job_id` key is absent (the id sits inside
`body`), so the `$.ota_result.Payload.job_id` parameter of the first
`CheckDeploymentStatus` fails to resolve and the execution aborts with
a `States.Runtime` failure at the first status check — about two
minutes in, far short of the timeout — leaving the records exactly as
the delivered status events left them: the rollback task never runs and
no record is transitioned to CANCELLED by the workflow. -/
theorem workflow_aborts_at_first_check (fw : List (String × String))
    (table0 : List JobItem) (targets : List String)
    (fv dt u now arn : String) (ak : Option String)
    (tbl : List JobItem) (resp : Resp)
    (hcreate : create_ota_job fw table0 targets fv dt u now arn ak
      = CreateOutcome.result tbl resp)
    (n : Nat) (rounds : List (List (UpdateEvent × String))) (cNow : String) :
    runOtaWorkflow (n + 1) resp tbl rounds cNow
      = (WfOutcome.runtimeError, applyEvents tbl (rounds.headD [])) := by
  have hjob : resp.job_id = none :=
    create_result_no_top_job_id fw table0 targets fv dt u now arn ak tbl resp hcreate
  simp only [runOtaWorkflow]
  rw [hjob]

theorem workflow_aborts_at_first_check_witness :
    runOtaWorkflow 15 createdResp createdTable [] "tC"
      = (WfOutcome.runtimeError,
         applyEvents createdTable
           (List.headD ([] : List (List (UpdateEvent × String))) [])) :=
  workflow_aborts_at_first_check [("sensor", "1.0.1")] [] ["dev1"] "1.0.1"
    "sensor" "u1" "t1" "arn1" (some "acct") createdTable createdResp (by decide)
    14 [] "tC"

/-- C8 counterexample: a freshly created one-device job whose device
never reports — the run the claim says must exceed the 30-minute
timeout and end FAILED with its record CANCELLED — instead aborts with
a States.Runtime failure at the very first status check: the outcome is
neither the timeout nor the rollback outcome, and the record still
reads QUEUED, not CANCELLED. -/
theorem workflow_runtime_error_counterexample :
    create_ota_job [("sensor", "1.0.1")] [] ["dev1"] "1.0.1" "sensor" "u1" "t1"
        "arn1" (some "acct") = CreateOutcome.result createdTable createdResp
    ∧ runOtaWorkflow 15 createdResp createdTable [] "tC"
        = (WfOutcome.runtimeError, createdTable)
    ∧ createdTable.map statusOf = ["QUEUED"]
    ∧ WfOutcome.runtimeError ≠ WfOutcome.timedOut
    ∧ WfOutcome.runtimeError ≠ WfOutcome.failedRolledBack
    ∧ (["QUEUED"] : List String) ≠ ["CANCELLED"] := by
  refine ⟨by decide, by decide, by decide, by decide, by decide, by decide⟩

end VoltageCloud.Ota
